import Mathlib

/-!
Verification development for the kitapos middleware (src/server.js).

The file shallowly embeds the authorization and multi-tenant scoping
layer of the server: JWT issuance and gate middleware, the role policy,
and the per-endpoint handlers with their store and company scoping
filters.  The external collaborators (the Express framework, the
Supabase client, jsonwebtoken, bcrypt) are modelled as follows:

* the database is a record of row lists (`Db`); a handler receives
  `Option Db`, where `none` models `getSupabaseClient()` resolving to
  `null` (initialization failed);
* `jwt.verify` is an abstract parameter `verify : String → Except
  VerifyError Claims`; the jsonwebtoken library reports verification
  failure through exactly three error classes (TokenExpiredError,
  JsonWebTokenError, NotBeforeError), which `VerifyError` enumerates,
  so the defensive default branch of `authenticateToken` (generic
  INVALID_TOKEN) is unreachable and is not modelled;
* `bcrypt.compare` and `bcrypt.hash` are abstract function parameters;
* database ids are UUID strings; SQL NULL / absent JSON fields are
  `Option`, and JavaScript truthiness of such a field is `truthyS`
  (a nonempty string);
* timestamps (`created_at`, `updated_at`, `last_login`, token iat/exp)
  are not modelled; `.order(...)` clauses that only permute an
  unbounded result are not modelled, except that the products listing
  models `order by name` because it interacts with `.limit`;
* rows keep the columns that the verified properties mention; the
  remaining columns are carried through the handlers unchanged in the
  source and are omitted here.
-/

/-- JavaScript truthiness of an optional string field: present and
nonempty.  An absent field (`none`) models both `undefined` and SQL
NULL. -/
def truthyS : Option String → Bool
  | none => false
  | some s => !(s == "")

/-- JavaScript `String.prototype.split(sep)` over a character list;
defined structurally so that proofs can evaluate it. -/
def splitChars (sep : Char) : List Char → List (List Char)
  | [] => [[]]
  | c :: cs =>
    if c == sep then [] :: splitChars sep cs
    else
      match splitChars sep cs with
      | [] => [[c]]
      | w :: ws => (c :: w) :: ws

/-- Lowercasing, character by character. -/
def lowerS (s : String) : String :=
  String.mk (s.toList.map Char.toLower)

/-- Uppercasing, character by character. -/
def upperS (s : String) : String :=
  String.mk (s.toList.map Char.toUpper)

/-- JavaScript `String.prototype.trim()`: strip whitespace from both
ends. -/
def trimS (s : String) : String :=
  String.mk
    (((s.toList.dropWhile Char.isWhitespace).reverse.dropWhile
        Char.isWhitespace).reverse)

/-- The signed JWT payload.  `generateToken` (server.js:225) signs only
`id`, `email` and `role`; the optional scoping fields exist in the
payload type because handlers read `req.user.store_id` and
`req.user.company_id` from decoded tokens. -/
structure Claims where
  id : Nat
  email : String
  role : String
  store_id : Option String := none
  company_id : Option String := none
deriving DecidableEq, Repr

/-- A user row of the `users` table. -/
structure UserRow where
  id : Nat
  email : String
  password : String
  name : String
  role : String
  phone : Option String := none
  store_id : Option String := none
  company_id : Option String := none
  is_active : Bool := true
deriving DecidableEq, Repr

/-- Embedding of `generateToken` (server.js:225-235): the payload signed
into the token is exactly `{id: user.id, email: user.email, role:
user.role}`; no other field of the user record is embedded. -/
def generateToken (user : UserRow) : Claims :=
  { id := user.id, email := user.email, role := user.role }

/-- The three error classes that `jwt.verify` of the jsonwebtoken
library can report: TokenExpiredError, JsonWebTokenError (malformed
structure or bad signature), NotBeforeError. -/
inductive VerifyError where
  | expired
  | malformed
  | notActive
deriving DecidableEq, Repr

/-- The HTTP error code `authenticateToken` maps each verification
error to (server.js:257-266). -/
def verifyErrCode : VerifyError → String
  | .expired => "TOKEN_EXPIRED"
  | .malformed => "MALFORMED_TOKEN"
  | .notActive => "TOKEN_NOT_ACTIVE"

/-- Token extraction from the authorization header (server.js:239-240):
`authHeader && authHeader.split(' ')[1]`.  A missing header, a header
without a second word, and an empty second word (all falsy in
JavaScript) yield no token. -/
def extractToken (authHeader : Option String) : Option String :=
  match authHeader with
  | none => none
  | some h =>
    match (splitChars ' ' h.toList)[1]? with
    | none => none
    | some t => if t.isEmpty then none else some (String.mk t)

/-- Outcome of the authentication gate for one request. -/
inductive AuthResult where
  | reject (status : Nat) (code : String)
  | accept (user : Claims)
deriving DecidableEq, Repr

/-- Embedding of the `authenticateToken` middleware (server.js:238-276):
missing token rejects 401 NO_TOKEN; a present token is delegated to
`jwt.verify` (the `verify` parameter); each verification error maps to
a 403 with its specific code; success attaches the decoded claims. -/
def authenticateToken (verify : String → Except VerifyError Claims)
    (authHeader : Option String) : AuthResult :=
  match extractToken authHeader with
  | none => .reject 401 "NO_TOKEN"
  | some t =>
    match verify t with
    | .error e => .reject 403 (verifyErrCode e)
    | .ok user => .accept user

/-- Embedding of the `optionalAuthentication` middleware
(server.js:279-297): a missing token or a failed verification silently
yields an anonymous request (`req.user = null`); it never rejects. -/
def optionalAuthentication (verify : String → Except VerifyError Claims)
    (authHeader : Option String) : Option Claims :=
  match extractToken authHeader with
  | none => none
  | some t =>
    match verify t with
    | .error _ => none
    | .ok user => some user

/-- The `roles` argument of `requireRole`, which accepts a single role
or an array (server.js:309). -/
inductive RoleArg where
  | one (r : String)
  | many (rs : List String)
deriving DecidableEq, Repr

/-- `Array.isArray(roles) ? roles : [roles]` (server.js:309). -/
def allowedOf : RoleArg → List String
  | .one r => [r]
  | .many rs => rs

/-- Outcome of the `requireRole` middleware.  `authRequired` responds
401 with code AUTH_REQUIRED; `insufficient` responds 403 with code
INSUFFICIENT_PERMISSIONS and a body echoing the required role list and
the actual role of the caller. -/
inductive RoleResult where
  | next
  | authRequired
  | insufficient (requiredRoles : List String) (userRole : String)
deriving DecidableEq, Repr

/-- Embedding of the `requireRole` middleware (server.js:300-320): a
missing identity rejects with AUTH_REQUIRED; an identity whose role is
not in the allow-list rejects with INSUFFICIENT_PERMISSIONS echoing
the list and the role; otherwise control passes to the next stage. -/
def requireRole (roles : RoleArg) (user : Option Claims) : RoleResult :=
  match user with
  | none => .authRequired
  | some u =>
    if u.role ∈ allowedOf roles then .next
    else .insufficient (allowedOf roles) u.role

/-- Response of an endpoint: an error with status and machine-readable
code, the role-policy 403 carrying its diagnostic fields, or a success
with status and body. -/
inductive Out (β : Type) where
  | err (status : Nat) (code : String) : Out β
  | errRoles (status : Nat) (code : String) (requiredRoles : List String)
      (userRole : String) : Out β
  | ok (status : Nat) (body : β) : Out β
deriving DecidableEq, Repr

/-- Express chaining of `authenticateToken` before a continuation: a
rejection short-circuits with the corresponding HTTP error and the
continuation (the rest of the middleware chain and the handler) never
runs; on success the decoded identity is passed on. -/
def afterAuth {β : Type} (verify : String → Except VerifyError Claims)
    (authHeader : Option String) (k : Claims → Out β) : Out β :=
  match authenticateToken verify authHeader with
  | .reject s c => .err s c
  | .accept u => k u

/-- Express chaining of `requireRole` before a continuation, mapping
the two rejections to their HTTP responses (server.js:302-317). -/
def afterRole {β : Type} (roles : RoleArg) (user : Option Claims)
    (k : Claims → Out β) : Out β :=
  match user with
  | none => .err 401 "AUTH_REQUIRED"
  | some u =>
    match requireRole roles (some u) with
    | .next => k u
    | .authRequired => .err 401 "AUTH_REQUIRED"
    | .insufficient rs r => .errRoles 403 "INSUFFICIENT_PERMISSIONS" rs r

/-- A staff row (`staff` table).  `role` and `position` both exist in
the schema; `GET /staff` presents `position || role || 'staff'` as the
role of each member. -/
structure StaffRow where
  id : String
  staff_id : String
  name : String
  store_id : String
  passcode : String
  role : Option String := none
  position : Option String := none
  is_active : Bool := true
  created_by : Nat := 0
deriving DecidableEq, Repr

/-- A store row (`stores` table). -/
structure StoreRow where
  id : String
  name : String
  company_id : Option String := none
  is_active : Bool := true
deriving DecidableEq, Repr

/-- A product row (`products` table). -/
structure ProductRow where
  id : String
  name : String
  sku : Option String := none
  barcode : Option String := none
  category_id : Option String := none
  store_id : String
  stock_quantity : Int := 0
  is_active : Bool := true
  created_by : Nat := 0
deriving DecidableEq, Repr

/-- A category row (`categories` table). -/
structure CategoryRow where
  id : String
  name : String
  store_id : String
  is_active : Bool := true
  created_by : Nat := 0
deriving DecidableEq, Repr

/-- A company row (`companies` table). -/
structure CompanyRow where
  id : String
  name : String
  is_active : Bool := true
deriving DecidableEq, Repr

/-- The database contents reachable through the Supabase client.
`nextUserId` and `freshId` stand for the id generation the database
performs on insert. -/
structure Db where
  users : List UserRow := []
  staff : List StaffRow := []
  stores : List StoreRow := []
  products : List ProductRow := []
  categories : List CategoryRow := []
  companies : List CompanyRow := []
  nextUserId : Nat := 0
  freshId : String := "fresh-id"
deriving DecidableEq, Repr

/-- First truthy of two optional strings with a final default, the
JavaScript idiom `a || b || c` on string fields. -/
def firstTruthyS (a b : Option String) (dflt : String) : String :=
  if truthyS a then a.getD dflt
  else if truthyS b then b.getD dflt
  else dflt

/-- The per-row mapping of `GET /staff` (server.js:697-700): the
response rows are the staff rows with `role` forced to
`position || role || 'staff'`. -/
def staffView (r : StaffRow) : StaffRow :=
  { r with role := some (firstTruthyS r.position r.role "staff") }

/-- Embedding of the `GET /staff` handler body (server.js:648-717;
runs behind `authenticateToken` and
`requireRole(['super_admin','manager'])`).  Query: active staff,
scoped by store for a manager carrying a `store_id` claim, optionally
narrowed by the `store_id` query parameter for a super_admin,
otherwise unfiltered.  The `order by created_at` clause only permutes
the rows and is not modelled. -/
def getStaff (db : Option Db) (u : Claims) (qStoreId : Option String) :
    Out (List StaffRow) :=
  match db with
  | none => .err 503 "SERVICE_UNAVAILABLE"
  | some d =>
    let base := d.staff.filter (fun r => r.is_active)
    let rows :=
      if u.role = "manager" ∧ truthyS u.store_id then
        base.filter (fun r => some r.store_id == u.store_id)
      else if u.role = "super_admin" then
        if truthyS qStoreId then
          base.filter (fun r => some r.store_id == qStoreId)
        else base
      else base
    .ok 200 (rows.map staffView)

/-- The request body of `POST /staff` (server.js:722). -/
structure StaffPostBody where
  name : Option String := none
  staff_id : Option String := none
  store_id : Option String := none
  passcode : Option String := none
  image_url : Option String := none
  role : Option String := none
deriving DecidableEq, Repr

/-- Embedding of the `POST /staff` handler (server.js:720-843; behind
`authenticateToken` and `requireRole(['super_admin','manager'])`).
Field presence is validated first, then the manager store check runs
BEFORE the database client is obtained; a duplicate active staff_id is
rejected 409; otherwise the trimmed and uppercased row is inserted. -/
def postStaff (db : Option Db) (u : Claims) (b : StaffPostBody) :
    Out StaffRow :=
  if ¬ (truthyS b.name ∧ truthyS b.staff_id ∧ truthyS b.store_id ∧
        truthyS b.passcode) then
    .err 400 "MISSING_FIELDS"
  else if u.role = "manager" ∧ truthyS u.store_id ∧
          ¬ (b.store_id = u.store_id) then
    .err 403 "STORE_ACCESS_DENIED"
  else
    match db with
    | none => .err 503 "SERVICE_UNAVAILABLE"
    | some d =>
      let sid := upperS (trimS (b.staff_id.getD ""))
      if d.staff.any (fun r => r.staff_id == sid && r.is_active) then
        .err 409 "STAFF_ID_EXISTS"
      else
        .ok 201
          { id := d.freshId
            staff_id := sid
            name := trimS (b.name.getD "")
            store_id := b.store_id.getD ""
            passcode := trimS (b.passcode.getD "")
            role := some (firstTruthyS b.role none "staff")
            position := none
            is_active := true
            created_by := u.id }

/-- Embedding of the `GET /stores` handler body (server.js:972-1049;
behind `authenticateToken` only, with no role policy).  A super_admin
sees every active store, optionally narrowed by the `company_id` query
parameter; a manager sees the stores of its company, or failing that
its assigned store; any other role sees its assigned store; an
identity with neither affiliation falls through to the unfiltered
active list. -/
def getStores (db : Option Db) (u : Claims) (qCompanyId : Option String) :
    Out (List StoreRow) :=
  match db with
  | none => .err 503 "SERVICE_UNAVAILABLE"
  | some d =>
    let base := d.stores.filter (fun r => r.is_active)
    let rows :=
      if u.role = "super_admin" then
        if truthyS qCompanyId then
          base.filter (fun r => r.company_id == qCompanyId)
        else base
      else if u.role = "manager" then
        if truthyS u.company_id then
          base.filter (fun r => r.company_id == u.company_id)
        else if truthyS u.store_id then
          base.filter (fun r => some r.id == u.store_id)
        else base
      else if truthyS u.store_id then
        base.filter (fun r => some r.id == u.store_id)
      else base
    .ok 200 rows

/-- Whether the character list `p` occurs at the start of `s`. -/
def prefChars : List Char → List Char → Bool
  | [], _ => true
  | _ :: _, [] => false
  | a :: as, b :: bs => a == b && prefChars as bs

/-- Whether the character list `p` occurs contiguously inside `s`. -/
def hasSubChars (p : List Char) : List Char → Bool
  | [] => p.isEmpty
  | c :: cs => prefChars p (c :: cs) || hasSubChars p cs

/-- Case-insensitive containment, the semantics of the PostgREST
filter `column.ilike.%pat%`. -/
def ilikeContains (pat s : String) : Bool :=
  hasSubChars (lowerS pat).toList (lowerS s).toList

/-- `ilike` on a nullable column: a NULL column never matches. -/
def ilikeOpt (pat : String) : Option String → Bool
  | none => false
  | some v => ilikeContains pat v

/-- The search disjunction of `GET /products` (server.js:1690):
`name.ilike.%s%`, `sku.ilike.%s%`, `barcode.ilike.%s%`. -/
def productSearchMatch (s : String) (r : ProductRow) : Bool :=
  ilikeContains s r.name || ilikeOpt s r.sku || ilikeOpt s r.barcode

/-- Insertion step of the name sort used by the products listing. -/
def insertByName (r : ProductRow) : List ProductRow → List ProductRow
  | [] => [r]
  | x :: xs =>
    if r.name ≤ x.name then r :: x :: xs else x :: insertByName r xs

/-- `order by name ascending`, modelled as an insertion sort; it is
modelled for products because it decides which rows survive the
`limit` clause. -/
def sortByName : List ProductRow → List ProductRow
  | [] => []
  | x :: xs => insertByName x (sortByName xs)

/-- Query parameters of `GET /products` (server.js:1649,1674): the
`limit` parameter defaults to 100. -/
structure ProductsQuery where
  category_id : Option String := none
  search : Option String := none
  store_id : Option String := none
  limit : Nat := 100
deriving DecidableEq, Repr

/-- Embedding of the `GET /products` handler body (server.js:1631-1719;
behind `authenticateToken` and
`requireRole(['super_admin','manager','cashier'])`).  Filters: active
rows, store scope by role, optional category filter, optional search
disjunction; then the name order and the row limit. -/
def getProducts (db : Option Db) (u : Claims) (q : ProductsQuery) :
    Out (List ProductRow) :=
  match db with
  | none => .err 503 "SERVICE_UNAVAILABLE"
  | some d =>
    let base := d.products.filter (fun r => r.is_active)
    let scopedRows :=
      if u.role = "manager" ∧ truthyS u.store_id then
        base.filter (fun r => some r.store_id == u.store_id)
      else if u.role = "cashier" ∧ truthyS u.store_id then
        base.filter (fun r => some r.store_id == u.store_id)
      else if u.role = "super_admin" then
        if truthyS q.store_id then
          base.filter (fun r => some r.store_id == q.store_id)
        else base
      else base
    let byCat :=
      if truthyS q.category_id then
        scopedRows.filter (fun r => r.category_id == q.category_id)
      else scopedRows
    let bySearch :=
      if truthyS q.search then
        byCat.filter (productSearchMatch (q.search.getD ""))
      else byCat
    .ok 200 ((sortByName bySearch).take q.limit)

/-- The request body of `POST /products` (server.js:1724-1729), kept to
the fields the handler validates or checks for duplication; the price,
stock and presentation columns are copied into the row unchanged in
the source and are not modelled. -/
structure ProductPostBody where
  name : Option String := none
  sku : Option String := none
  barcode : Option String := none
  category_id : Option String := none
  store_id : Option String := none
  default_price : Option String := none
deriving DecidableEq, Repr

/-- Embedding of the `POST /products` handler (server.js:1722-1842;
behind `authenticateToken` and `requireRole(['super_admin','manager'])`).
Field presence first, then the manager store check BEFORE the database
client is obtained, then the duplicate-SKU check, then the insert. -/
def postProduct (db : Option Db) (u : Claims) (b : ProductPostBody) :
    Out ProductRow :=
  if ¬ (truthyS b.name ∧ truthyS b.store_id ∧ truthyS b.default_price) then
    .err 400 "MISSING_FIELDS"
  else if u.role = "manager" ∧ truthyS u.store_id ∧
          ¬ (b.store_id = u.store_id) then
    .err 403 "STORE_ACCESS_DENIED"
  else
    match db with
    | none => .err 503 "SERVICE_UNAVAILABLE"
    | some d =>
      let skuUp := b.sku.map (fun s => upperS (trimS s))
      if truthyS b.sku ∧
          d.products.any (fun r => r.sku == skuUp && r.is_active) then
        .err 409 "SKU_EXISTS"
      else
        .ok 201
          { id := d.freshId
            name := trimS (b.name.getD "")
            sku := if truthyS b.sku then skuUp else none
            barcode := if truthyS b.barcode then b.barcode else none
            category_id := if truthyS b.category_id then b.category_id else none
            store_id := b.store_id.getD ""
            stock_quantity := 0
            is_active := true
            created_by := u.id }

/-- The update body of `PUT /products/:productId` (server.js:1848):
the request JSON is spread into the update after `updated_at` is
stamped and `id`, `created_at`, `created_by` are deleted; each field
present in the body overwrites the column. -/
structure ProductUpdates where
  name : Option String := none
  sku : Option String := none
  barcode : Option String := none
  category_id : Option String := none
  store_id : Option String := none
  stock_quantity : Option Int := none
  is_active : Option Bool := none
deriving DecidableEq, Repr

/-- The spread update applied by `PUT /products/:productId`: fields
present in the body overwrite the row; `id` and `created_by` were
deleted from the update and stay unchanged. -/
def applyProductUpdates (r : ProductRow) (u : ProductUpdates) : ProductRow :=
  { r with
    name := u.name.getD r.name
    sku := match u.sku with | some s => some s | none => r.sku
    barcode := match u.barcode with | some s => some s | none => r.barcode
    category_id := match u.category_id with
      | some s => some s | none => r.category_id
    store_id := u.store_id.getD r.store_id
    stock_quantity := u.stock_quantity.getD r.stock_quantity
    is_active := u.is_active.getD r.is_active }

/-- Embedding of the `PUT /products/:productId` handler
(server.js:1845-1917; behind `authenticateToken` and
`requireRole(['super_admin','manager'])`).  The handler checks neither
the store of the targeted product nor the `store_id` of the update
body against the identity of the caller: after the null-client check
it goes straight to the database update.  When the id matches no row,
`.single()` reports a PostgREST error and the handler answers 400
DB_UPDATE_ERROR, so the explicit 404 branch is unreachable. -/
def putProduct (db : Option Db) (_user : Claims) (productId : String)
    (upd : ProductUpdates) : Out ProductRow :=
  match db with
  | none => .err 503 "SERVICE_UNAVAILABLE"
  | some d =>
    match d.products.find? (fun r => r.id == productId) with
    | none => .err 400 "DB_UPDATE_ERROR"
    | some r => .ok 200 (applyProductUpdates r upd)

/-- Embedding of the `GET /categories` handler body
(server.js:1482-1548; behind `authenticateToken` and
`requireRole(['super_admin','manager','cashier'])`). -/
def getCategories (db : Option Db) (u : Claims) (qStoreId : Option String) :
    Out (List CategoryRow) :=
  match db with
  | none => .err 503 "SERVICE_UNAVAILABLE"
  | some d =>
    let base := d.categories.filter (fun r => r.is_active)
    let rows :=
      if u.role = "manager" ∧ truthyS u.store_id then
        base.filter (fun r => some r.store_id == u.store_id)
      else if u.role = "cashier" ∧ truthyS u.store_id then
        base.filter (fun r => some r.store_id == u.store_id)
      else if u.role = "super_admin" then
        if truthyS qStoreId then
          base.filter (fun r => some r.store_id == qStoreId)
        else base
      else base
    .ok 200 rows

/-- The user object returned to clients (password never included).
Endpoints select different column subsets; unselected optional columns
are `none` and an unselected `is_active` is `none`. -/
structure UserPublic where
  id : Nat
  email : String
  name : String
  role : String
  phone : Option String := none
  store_id : Option String := none
  company_id : Option String := none
  is_active : Option Bool := none
deriving DecidableEq, Repr

/-- The full user row minus the password, as returned by the Supabase
branch of `POST /auth/login` (server.js:624). -/
def publicOfRow (r : UserRow) : UserPublic :=
  { id := r.id, email := r.email, name := r.name, role := r.role
    phone := r.phone, store_id := r.store_id, company_id := r.company_id
    is_active := some r.is_active }

/-- The demo records of the fallback branch of `POST /auth/login`
(server.js:565-569): plain objects with id, name, role and email. -/
def demoPublic (id : Nat) (name role email : String) : UserPublic :=
  { id := id, email := email, name := name, role := role }

/-- The `demoUsers[email]` lookup of the login fallback branch
(server.js:565-571). -/
def demoUser (e : String) : Option UserPublic :=
  if e = "admin@techcorp.com" then
    some (demoPublic 1 "Demo Admin" "super_admin" "admin@techcorp.com")
  else if e = "manager@techcorp.com" then
    some (demoPublic 2 "Demo Manager" "manager" "manager@techcorp.com")
  else if e = "cashier@techcorp.com" then
    some (demoPublic 3 "Demo Cashier" "cashier" "cashier@techcorp.com")
  else none

/-- The token signed for a fallback demo user: `generateToken(user)`
on an object carrying id, email and role. -/
def demoToken (u : UserPublic) : Claims :=
  { id := u.id, email := u.email, role := u.role }

/-- Response of the authentication endpoints: an error, or a success
carrying the user, the signed token and the `source` field. -/
inductive AuthOut where
  | err (status : Nat) (code : String)
  | ok (status : Nat) (user : UserPublic) (token : Claims) (source : String)
deriving DecidableEq, Repr

/-- Embedding of `POST /auth/login` (server.js:544-643).  `checkPw`
stands for `bcrypt.compare`.  With a null database handle the handler
does NOT answer 503: it falls back to the hard-coded demo users and
compares the password against the literal string `password123`.  With
a database, the user is looked up by lowercased email among active
rows, the hash is compared, and the full row minus the password is
returned with a fresh token.  The `last_login` update is a write of an
unmodelled timestamp column. -/
def postLogin (checkPw : String → String → Bool) (db : Option Db)
    (email password : Option String) : AuthOut :=
  if ¬ (truthyS email ∧ truthyS password) then
    .err 400 "MISSING_CREDENTIALS"
  else
    let e := lowerS (email.getD "")
    let pw := password.getD ""
    match db with
    | none =>
      match demoUser e with
      | some u =>
        if pw = "password123" then .ok 200 u (demoToken u) "fallback"
        else .err 401 "INVALID_CREDENTIALS"
      | none => .err 401 "INVALID_CREDENTIALS"
    | some d =>
      match d.users.find? (fun r => r.email == e && r.is_active) with
      | none => .err 401 "INVALID_CREDENTIALS"
      | some r =>
        if checkPw pw r.password then
          .ok 200 (publicOfRow r) (generateToken r) "supabase"
        else .err 401 "INVALID_CREDENTIALS"

/-- The email shape accepted by `POST /auth/register`
(server.js:1252): the regular expression
`[^\s@]+ @ [^\s@]+ \. [^\s@]+` anchored at both ends.  Equivalently:
no whitespace anywhere, exactly one at-sign with nonempty sides, and
the domain side contains a dot with at least one character before and
after it. -/
def emailOk (e : String) : Bool :=
  let cs := e.toList
  (cs.all (fun c => !c.isWhitespace)) &&
    match splitChars '@' cs with
    | [l, d] => !l.isEmpty && !d.isEmpty && ((d.drop 1).dropLast.contains '.')
    | _ => false

/-- The request body of `POST /auth/register` (server.js:1239).  The
destructured `store_id` and `company_id` are never written into the
inserted row and are omitted. -/
structure RegisterBody where
  email : Option String := none
  password : Option String := none
  name : Option String := none
  role : Option String := none
  phone : Option String := none
deriving DecidableEq, Repr

/-- The user row inserted by `POST /auth/register` (server.js:1304-1316):
lowercased and trimmed email, hashed password, trimmed name, the role
from the body (SQL NULL, modelled as the empty string, when absent),
the trimmed phone when truthy. -/
def insertedUser (hash : String → String) (d : Db) (b : RegisterBody) :
    UserRow :=
  { id := d.nextUserId
    email := trimS (lowerS (b.email.getD ""))
    password := hash (b.password.getD "")
    name := trimS (b.name.getD "")
    role := b.role.getD ""
    phone :=
      match b.phone with
      | some ph => if trimS ph == "" then none else some (trimS ph)
      | none => none
    store_id := none
    company_id := none
    is_active := true }

/-- The column subset returned by the register insert
(server.js:1322): id, email, name, role, phone, is_active. -/
def registerPublic (r : UserRow) : UserPublic :=
  { id := r.id, email := r.email, name := r.name, role := r.role
    phone := r.phone, is_active := some r.is_active }

/-- Embedding of `POST /auth/register` (server.js:1237-1361).  Order of
the checks: required fields, email shape, password length, null
client, duplicate email (409 USER_EXISTS), insert; the response is 201
with the created user, a token signed over it, and the source. -/
def registerUser (hash : String → String) (db : Option Db)
    (b : RegisterBody) : AuthOut :=
  if ¬ (truthyS b.email ∧ truthyS b.password ∧ truthyS b.name) then
    .err 400 "MISSING_FIELDS"
  else if ¬ emailOk (b.email.getD "") then
    .err 400 "INVALID_EMAIL"
  else if (b.password.getD "").length < 6 then
    .err 400 "WEAK_PASSWORD"
  else
    match db with
    | none => .err 503 "SERVICE_UNAVAILABLE"
    | some d =>
      if d.users.any (fun r => r.email == lowerS (b.email.getD "")) then
        .err 409 "USER_EXISTS"
      else
        let row := insertedUser hash d b
        .ok 201 (registerPublic row) (generateToken row) "supabase"

/-- Response of `GET /auth/profile`: with a null client the handler
returns the identity cached in the token (source `fallback`); with a
client it returns the stored row (source `supabase`) or 404. -/
inductive ProfileOut where
  | err (status : Nat) (code : String)
  | okCached (user : Claims)
  | okDb (user : UserPublic)
deriving DecidableEq, Repr

/-- The column subset selected by `GET /auth/profile`
(server.js:1378). -/
def profilePublic (r : UserRow) : UserPublic :=
  { id := r.id, email := r.email, name := r.name, role := r.role
    phone := r.phone, is_active := some r.is_active }

/-- Embedding of the `GET /auth/profile` handler (server.js:1364-1398;
behind `authenticateToken`).  A null client does NOT answer 503: the
decoded token claims are returned directly. -/
def getProfile (db : Option Db) (u : Claims) : ProfileOut :=
  match db with
  | none => .okCached u
  | some d =>
    match d.users.find? (fun r => r.id == u.id) with
    | none => .err 404 "USER_NOT_FOUND"
    | some r => .okDb (profilePublic r)

/-- The body of the logout response (server.js:1411-1414). -/
structure LogoutBody where
  message : String
  code : String
deriving DecidableEq, Repr

/-- Embedding of `POST /auth/logout` (server.js:1401-1415) behind
`optionalAuthentication`: whatever the optional authentication yields,
the handler answers 200 with the same body; it touches neither the
database nor any server-side token state (the whole pipeline is a pure
function of the request). -/
def postLogout (verify : String → Except VerifyError Claims)
    (authHeader : Option String) : Out LogoutBody :=
  match optionalAuthentication verify authHeader with
  | _ => .ok 200 { message := "Logout successful", code := "LOGOUT_SUCCESS" }

/-- A row of the `GET /sync/users` response (server.js:454-466): the
selected user columns plus the joined company name, defaulting to
`Unknown Company`. -/
structure SyncUserRow where
  id : Nat
  email : String
  name : String
  role : String
  phone : Option String
  company_id : Option String
  company_name : String
  is_active : Bool
deriving DecidableEq, Repr

/-- The join and formatting of `GET /sync/users`:
`companies!company_id(name)` with `user.companies?.name ||
'Unknown Company'`. -/
def syncUserView (d : Db) (r : UserRow) : SyncUserRow :=
  { id := r.id, email := r.email, name := r.name, role := r.role
    phone := r.phone, company_id := r.company_id
    company_name :=
      match d.companies.find? (fun c => some c.id == r.company_id) with
      | some c => c.name
      | none => "Unknown Company"
    is_active := r.is_active }

/-- Embedding of the `GET /sync/users` handler (server.js:414-484).
The route is registered with NO middleware: no token is extracted or
verified, and every user row (active or not) is returned to any
caller. -/
def getSyncUsers (db : Option Db) : Out (List SyncUserRow) :=
  match db with
  | none => .err 503 "SERVICE_UNAVAILABLE"
  | some d => .ok 200 (d.users.map (syncUserView d))

/-- The body of the `GET /sync/all` response (server.js:1204-1221):
every row of six tables, unfiltered. -/
structure SyncAllBody where
  users : List UserPublic
  companies : List CompanyRow
  stores : List StoreRow
  staff : List StaffRow
  categories : List CategoryRow
  products : List ProductRow
deriving DecidableEq, Repr

/-- The user columns selected by `GET /sync/all` (server.js:1142). -/
def syncAllUserView (r : UserRow) : UserPublic :=
  { id := r.id, email := r.email, name := r.name, role := r.role
    phone := r.phone, store_id := r.store_id, company_id := r.company_id
    is_active := some r.is_active }

/-- Embedding of the second (shadowing) registration of `GET /sync/all`
(server.js:1126-1234).  Like `/sync/users` it carries NO middleware
and dumps users, companies, stores, staff, categories and products to
any caller. -/
def getSyncAll (db : Option Db) : Out SyncAllBody :=
  match db with
  | none => .err 503 "SERVICE_UNAVAILABLE"
  | some d =>
    .ok 200
      { users := d.users.map syncAllUserView
        companies := d.companies
        stores := d.stores
        staff := d.staff
        categories := d.categories
        products := d.products }

/-- Embedding of the FIRST registered `GET /companies` handler
(server.js:2206-2252; behind `authenticateToken` and
`requireRole(['super_admin'])`): every active company with the count
of its related stores. -/
def adminGetCompanies (db : Option Db) : Out (List (CompanyRow × Nat)) :=
  match db with
  | none => .err 503 "SERVICE_UNAVAILABLE"
  | some d =>
    .ok 200
      ((d.companies.filter (fun c => c.is_active)).map
        (fun c =>
          (c, (d.stores.filter (fun s => s.company_id == some c.id)).length)))

/-- The flattened company object of the second `GET /companies`
handler (server.js:2328-2344). -/
structure FormattedCompany where
  id : String
  name : String
  is_active : Bool
  stores_count : Nat
deriving DecidableEq, Repr

/-- The formatting step of the second `GET /companies` handler. -/
def formatCompany (d : Db) (c : CompanyRow) : FormattedCompany :=
  { id := c.id, name := c.name, is_active := c.is_active
    stores_count := (d.stores.filter (fun s => s.company_id == some c.id)).length }

/-- Embedding of the SECOND registered `GET /companies` handler
(server.js:2260-2361; behind `authenticateToken` only): a super_admin
sees every active company; any other identity sees its own company
when it carries a `company_id`, and an empty list otherwise (the empty
answer is produced before the database query runs).  Express dispatch
never reaches this route: the first registration matches every
`GET /companies` request and always responds. -/
def getCompaniesScoped (db : Option Db) (u : Claims) :
    Out (List FormattedCompany) :=
  match db with
  | none => .err 503 "SERVICE_UNAVAILABLE"
  | some d =>
    if u.role = "super_admin" then
      .ok 200 ((d.companies.filter (fun c => c.is_active)).map (formatCompany d))
    else if truthyS u.company_id then
      .ok 200
        ((d.companies.filter
            (fun c => c.is_active && some c.id == u.company_id)).map
          (formatCompany d))
    else .ok 200 []

/-- Route `GET /staff` as registered (server.js:648):
`authenticateToken, requireRole(['super_admin','manager'])`, then the
handler. -/
def staffGetR (verify : String → Except VerifyError Claims)
    (hdr : Option String) (db : Option Db) (qStoreId : Option String) :
    Out (List StaffRow) :=
  afterAuth verify hdr fun u =>
    afterRole (.many ["super_admin", "manager"]) (some u) fun u =>
      getStaff db u qStoreId

/-- Route `POST /staff` as registered (server.js:720). -/
def staffPostR (verify : String → Except VerifyError Claims)
    (hdr : Option String) (db : Option Db) (b : StaffPostBody) :
    Out StaffRow :=
  afterAuth verify hdr fun u =>
    afterRole (.many ["super_admin", "manager"]) (some u) fun u =>
      postStaff db u b

/-- Route `GET /stores` as registered (server.js:972): only
`authenticateToken`, no role policy. -/
def storesGetR (verify : String → Except VerifyError Claims)
    (hdr : Option String) (db : Option Db) (qCompanyId : Option String) :
    Out (List StoreRow) :=
  afterAuth verify hdr fun u => getStores db u qCompanyId

/-- Route `GET /products` as registered (server.js:1631). -/
def productsGetR (verify : String → Except VerifyError Claims)
    (hdr : Option String) (db : Option Db) (q : ProductsQuery) :
    Out (List ProductRow) :=
  afterAuth verify hdr fun u =>
    afterRole (.many ["super_admin", "manager", "cashier"]) (some u) fun u =>
      getProducts db u q

/-- Route `POST /products` as registered (server.js:1722). -/
def productsPostR (verify : String → Except VerifyError Claims)
    (hdr : Option String) (db : Option Db) (b : ProductPostBody) :
    Out ProductRow :=
  afterAuth verify hdr fun u =>
    afterRole (.many ["super_admin", "manager"]) (some u) fun u =>
      postProduct db u b

/-- Route `PUT /products/:productId` as registered (server.js:1845). -/
def productsPutR (verify : String → Except VerifyError Claims)
    (hdr : Option String) (db : Option Db) (productId : String)
    (upd : ProductUpdates) : Out ProductRow :=
  afterAuth verify hdr fun u =>
    afterRole (.many ["super_admin", "manager"]) (some u) fun u =>
      putProduct db u productId upd

/-- Route `GET /categories` as registered (server.js:1482). -/
def categoriesGetR (verify : String → Except VerifyError Claims)
    (hdr : Option String) (db : Option Db) (qStoreId : Option String) :
    Out (List CategoryRow) :=
  afterAuth verify hdr fun u =>
    afterRole (.many ["super_admin", "manager", "cashier"]) (some u) fun u =>
      getCategories db u qStoreId

/-- Route `GET /auth/profile` as registered (server.js:1364). -/
def profileGetR (verify : String → Except VerifyError Claims)
    (hdr : Option String) (db : Option Db) : ProfileOut :=
  match authenticateToken verify hdr with
  | .reject s c => .err s c
  | .accept u => getProfile db u

/-- Dispatch of `GET /companies`.  Two routes are registered for this
path; Express tries them in registration order, the first chain
(server.js:2206, super_admin only) matches every such request and
always responds — none of its middlewares or its handler ever calls
`next` to fall through — so the second chain (server.js:2260,
`getCompaniesScoped`) is unreachable and the dispatch is the first
chain alone. -/
def companiesGetR (verify : String → Except VerifyError Claims)
    (hdr : Option String) (db : Option Db) : Out (List (CompanyRow × Nat)) :=
  afterAuth verify hdr fun u =>
    afterRole (.many ["super_admin"]) (some u) fun _u =>
      adminGetCompanies db

/-- Route `GET /sync/users` as registered (server.js:414): no
middleware at all; the handler runs for every request, token or not. -/
def syncUsersR (_verify : String → Except VerifyError Claims)
    (_hdr : Option String) (db : Option Db) : Out (List SyncUserRow) :=
  getSyncUsers db

/-- Route `GET /sync/all` as registered (server.js:1126): no
middleware at all. -/
def syncAllR (_verify : String → Except VerifyError Claims)
    (_hdr : Option String) (db : Option Db) : Out SyncAllBody :=
  getSyncAll db

/-- Route `POST /auth/logout` as registered (server.js:1401):
`optionalAuthentication`, then the always-200 handler. -/
def logoutR (verify : String → Except VerifyError Claims)
    (hdr : Option String) : Out LogoutBody :=
  postLogout verify hdr

/-- A manager user row that carries a store affiliation, used to
exercise token issuance. -/
def exManagerRow : UserRow :=
  { id := 2, email := "manager@techcorp.com", password := "hash2"
    name := "Demo Manager", role := "manager", phone := none
    store_id := some "store-7", company_id := some "company-3"
    is_active := true }

/-- The decoded claims of a manager of store-1, as a token would carry
them if the scoping fields were embedded. -/
def exManagerClaims : Claims :=
  { id := 2, email := "manager@techcorp.com", role := "manager"
    store_id := some "store-1", company_id := none }

/-- The decoded claims of a cashier. -/
def exCashierClaims : Claims :=
  { id := 3, email := "cashier@techcorp.com", role := "cashier"
    store_id := some "store-1", company_id := none }

/-- A product of store-2, the store the manager of store-1 does not
belong to. -/
def exForeignProduct : ProductRow :=
  { id := "p42", name := "Widget", sku := some "W-1", barcode := none
    category_id := none, store_id := "store-2", stock_quantity := 5
    is_active := true, created_by := 9 }

/-- A small database: one user, one company, staff and products spread
over two stores. -/
def exDb : Db :=
  { users :=
      [{ id := 7, email := "alice@corp.io", password := "h", name := "Alice"
         role := "manager", phone := some "555", store_id := none
         company_id := some "company-3", is_active := true }]
    staff :=
      [{ id := "s1", staff_id := "A1", name := "Ann", store_id := "store-1"
         passcode := "1111", role := some "staff", position := none
         is_active := true, created_by := 7 },
       { id := "s2", staff_id := "B2", name := "Bob", store_id := "store-2"
         passcode := "2222", role := some "staff", position := none
         is_active := true, created_by := 7 }]
    stores :=
      [{ id := "store-1", name := "Downtown", company_id := some "company-3"
         is_active := true },
       { id := "store-2", name := "Uptown", company_id := some "company-3"
         is_active := true }]
    products := [exForeignProduct]
    categories := []
    companies := [{ id := "company-3", name := "TechCorp", is_active := true }]
    nextUserId := 8
    freshId := "fresh-id" }

/-- Claim C3: the spec states that the issued token embeds `store_id`
and `company_id` whenever they are present on the identity record.
The code contradicts this: `generateToken` signs only id, email and
role, so the decoded claims of a user affiliated with store-7 and
company-3 carry neither scoping field, even though downstream handlers
read `req.user.store_id` and `req.user.company_id`. -/
theorem c3_token_omits_scoping_fields :
    generateToken exManagerRow =
      { id := 2, email := "manager@techcorp.com", role := "manager"
        store_id := none, company_id := none } ∧
    exManagerRow.store_id = some "store-7" ∧
    exManagerRow.company_id = some "company-3" :=
  ⟨rfl, rfl, rfl⟩

/-- Claim C1: the spec states that every write by a non-admin identity
into a store other than its own is rejected 403 STORE_ACCESS_DENIED
before any database interaction.  The code contradicts this for
`PUT /products/:productId`: a manager of store-1 updating product p42,
which belongs to store-2, is not rejected — the handler performs the
database update and answers 200. -/
theorem c1_put_product_cross_store :
    productsPutR (fun _ => .ok exManagerClaims) (some "Bearer tok")
        (some exDb) "p42" { name := some "Renamed" } =
      .ok 200 { exForeignProduct with name := "Renamed" } ∧
    productsPutR (fun _ => .ok exManagerClaims) (some "Bearer tok")
        (some exDb) "p42" { name := some "Renamed" } ≠
      .err 403 "STORE_ACCESS_DENIED" := by
  exact ⟨by decide, by decide⟩

/-- Claim C4: for every request to a token-protected endpoint, a
missing token yields 401 NO_TOKEN; a present token that fails to
verify yields 403 with exactly one of TOKEN_EXPIRED, MALFORMED_TOKEN,
TOKEN_NOT_ACTIVE and the handler never runs; a verified token attaches
the decoded identity and the handler runs. -/
theorem c4_auth_gate_outcomes (verify : String → Except VerifyError Claims)
    (hdr : Option String) :
    (extractToken hdr = none →
      authenticateToken verify hdr = .reject 401 "NO_TOKEN" ∧
      ∀ (β : Type) (k : Claims → Out β),
        afterAuth verify hdr k = .err 401 "NO_TOKEN") ∧
    (∀ t e, extractToken hdr = some t → verify t = .error e →
      authenticateToken verify hdr = .reject 403 (verifyErrCode e) ∧
      (verifyErrCode e = "TOKEN_EXPIRED" ∨ verifyErrCode e = "MALFORMED_TOKEN" ∨
        verifyErrCode e = "TOKEN_NOT_ACTIVE") ∧
      ∀ (β : Type) (k : Claims → Out β),
        afterAuth verify hdr k = .err 403 (verifyErrCode e)) ∧
    (∀ t u, extractToken hdr = some t → verify t = .ok u →
      authenticateToken verify hdr = .accept u ∧
      ∀ (β : Type) (k : Claims → Out β), afterAuth verify hdr k = k u) := by
  refine ⟨?_, ?_, ?_⟩
  · intro h
    refine ⟨?_, fun β k => ?_⟩ <;> simp [afterAuth, authenticateToken, h]
  · intro t e ht he
    refine ⟨?_, ?_, fun β k => ?_⟩
    · simp [authenticateToken, ht, he]
    · cases e <;> simp [verifyErrCode]
    · simp [afterAuth, authenticateToken, ht, he]
  · intro t u ht hu
    refine ⟨?_, fun β k => ?_⟩ <;> simp [afterAuth, authenticateToken, ht, hu]

/-- Witness for C4: concrete requests hitting the missing-token and
the expired-token outcomes. -/
theorem c4_auth_gate_outcomes_witness :
    authenticateToken (fun _ => .error .expired) none =
      .reject 401 "NO_TOKEN" ∧
    authenticateToken (fun _ => .error .expired) (some "Bearer tok") =
      .reject 403 "TOKEN_EXPIRED" :=
  ⟨((c4_auth_gate_outcomes (fun _ => .error .expired) none).1 rfl).1,
   ((c4_auth_gate_outcomes (fun _ => .error .expired)
      (some "Bearer tok")).2.1 "tok" .expired rfl rfl).1⟩

/-- Claim C5: the role check passes exactly when a resolved identity
is present and its role is a member of the required set; a missing
identity yields 401 AUTH_REQUIRED; a role outside the allow-list
yields 403 INSUFFICIENT_PERMISSIONS echoing the required set and the
actual role; a member role lets the handler run.  No role outside the
list is accepted. -/
theorem c5_role_policy (roles : RoleArg) (user : Option Claims) :
    (requireRole roles user = .next ↔
      ∃ c, user = some c ∧ c.role ∈ allowedOf roles) ∧
    (user = none → requireRole roles user = .authRequired ∧
      ∀ (β : Type) (k : Claims → Out β),
        afterRole roles user k = .err 401 "AUTH_REQUIRED") ∧
    (∀ c, user = some c → c.role ∉ allowedOf roles →
      requireRole roles user = .insufficient (allowedOf roles) c.role ∧
      ∀ (β : Type) (k : Claims → Out β),
        afterRole roles user k =
          .errRoles 403 "INSUFFICIENT_PERMISSIONS" (allowedOf roles) c.role) ∧
    (∀ c, user = some c → c.role ∈ allowedOf roles →
      ∀ (β : Type) (k : Claims → Out β), afterRole roles user k = k c) := by
  refine ⟨?_, ?_, ?_, ?_⟩
  · constructor
    · intro h
      match user, h with
      | none, h => simp [requireRole] at h
      | some c, h =>
        by_cases hm : c.role ∈ allowedOf roles
        · exact ⟨c, rfl, hm⟩
        · simp [requireRole, hm] at h
    · rintro ⟨c, rfl, hm⟩
      simp [requireRole, hm]
  · rintro rfl
    exact ⟨rfl, fun β k => rfl⟩
  · rintro c rfl hm
    refine ⟨?_, fun β k => ?_⟩ <;> simp [afterRole, requireRole, hm]
  · rintro c rfl hm β k
    simp [afterRole, requireRole, hm]

/-- Witness for C5: a cashier hitting an endpoint restricted to
super_admin and manager is rejected with the echoed allow-list. -/
theorem c5_role_policy_witness :
    requireRole (.many ["super_admin", "manager"]) (some exCashierClaims) =
      .insufficient ["super_admin", "manager"] "cashier" :=
  ((c5_role_policy (.many ["super_admin", "manager"])
      (some exCashierClaims)).2.2.1 exCashierClaims rfl (by decide)).1

/-- Claim C8: logout always answers 200 with the same body, whatever
the token situation; the optional-authentication mode never rejects,
and the pipeline is a pure function of the request (no server-side
state exists to change, no token is invalidated). -/
theorem c8_logout_always_200 :
    (∀ verify hdr, logoutR verify hdr =
      .ok 200 { message := "Logout successful", code := "LOGOUT_SUCCESS" }) ∧
    (∀ v1 h1 v2 h2, logoutR v1 h1 = logoutR v2 h2) :=
  ⟨fun _ _ => rfl, fun _ _ _ _ => rfl⟩

/-- Claim C2 (amended): every modelled token-protected route verifies
the token before its handler runs — a request with no token is
answered 401 NO_TOKEN and a request whose token fails verification is
answered 403 with the specific code, the handler never running — while
the two sync routes are registered with no middleware and their
handlers run for every request, whatever the header carries. -/
theorem c2_gate_before_handlers :
    (∀ verify db q, staffGetR verify none db q = .err 401 "NO_TOKEN") ∧
    (∀ verify db b, staffPostR verify none db b = .err 401 "NO_TOKEN") ∧
    (∀ verify db q, storesGetR verify none db q = .err 401 "NO_TOKEN") ∧
    (∀ verify db q, productsGetR verify none db q = .err 401 "NO_TOKEN") ∧
    (∀ verify db b, productsPostR verify none db b = .err 401 "NO_TOKEN") ∧
    (∀ verify db pid upd,
      productsPutR verify none db pid upd = .err 401 "NO_TOKEN") ∧
    (∀ verify db q, categoriesGetR verify none db q = .err 401 "NO_TOKEN") ∧
    (∀ verify db, companiesGetR verify none db = .err 401 "NO_TOKEN") ∧
    (∀ verify db, profileGetR verify none db = .err 401 "NO_TOKEN") ∧
    (∀ e db q, staffGetR (fun _ => .error e) (some "Bearer tok") db q =
      .err 403 (verifyErrCode e)) ∧
    (∀ e db q, productsGetR (fun _ => .error e) (some "Bearer tok") db q =
      .err 403 (verifyErrCode e)) ∧
    (∀ e db pid upd,
      productsPutR (fun _ => .error e) (some "Bearer tok") db pid upd =
        .err 403 (verifyErrCode e)) ∧
    (∀ verify hdr db, syncUsersR verify hdr db = getSyncUsers db) ∧
    (∀ verify hdr db, syncAllR verify hdr db = getSyncAll db) := by
  refine ⟨?_, ?_, ?_, ?_, ?_, ?_, ?_, ?_, ?_, ?_, ?_, ?_, ?_, ?_⟩
  case refine_10 => intro e db q; cases e <;> rfl
  case refine_11 => intro e db q; cases e <;> rfl
  case refine_12 => intro e db pid upd; cases e <;> rfl
  all_goals intros; rfl

/-- Counterexample for C2: a request to `GET /sync/users` carrying no
authorization header at all reaches the handler and is answered 200
with the full user listing, so a resource handler does run for a
request with no valid token. -/
theorem c2_sync_without_token_counterexample :
    syncUsersR (fun _ => .error .malformed) none (some exDb) =
      .ok 200
        [{ id := 7, email := "alice@corp.io", name := "Alice"
           role := "manager", phone := some "555"
           company_id := some "company-3", company_name := "TechCorp"
           is_active := true }] ∧
    syncUsersR (fun _ => .error .malformed) none (some exDb) ≠
      .err 401 "NO_TOKEN" := by
  exact ⟨by decide, by decide⟩

/-- Claim C6 (amended): the database-backed handlers answer 503
SERVICE_UNAVAILABLE when the lazily initialized handle is null —
except `POST /auth/login`, which instead falls back to the hard-coded
demo users (200 on demo credentials, 401 otherwise, bcrypt never
consulted), and `GET /auth/profile`, which returns the identity cached
in the token. -/
theorem c6_null_client_behavior :
    (∀ u q, getStaff none u q = .err 503 "SERVICE_UNAVAILABLE") ∧
    (∀ u q, getStores none u q = .err 503 "SERVICE_UNAVAILABLE") ∧
    (∀ u q, getProducts none u q = .err 503 "SERVICE_UNAVAILABLE") ∧
    (∀ u q, getCategories none u q = .err 503 "SERVICE_UNAVAILABLE") ∧
    (getSyncUsers none = .err 503 "SERVICE_UNAVAILABLE") ∧
    (getSyncAll none = .err 503 "SERVICE_UNAVAILABLE") ∧
    (adminGetCompanies none = .err 503 "SERVICE_UNAVAILABLE") ∧
    (registerUser (fun s => s) none
        { email := some "new@corp.io", password := some "longenough"
          name := some "New" } = .err 503 "SERVICE_UNAVAILABLE") ∧
    (postLogin (fun _ _ => false) none (some "admin@techcorp.com")
        (some "password123") =
      .ok 200 (demoPublic 1 "Demo Admin" "super_admin" "admin@techcorp.com")
        (demoToken (demoPublic 1 "Demo Admin" "super_admin"
          "admin@techcorp.com")) "fallback") ∧
    (postLogin (fun _ _ => true) none (some "nobody@x.co")
        (some "password123") = .err 401 "INVALID_CREDENTIALS") ∧
    (∀ c : Claims, getProfile none c = .okCached c) := by
  refine ⟨?_, ?_, ?_, ?_, rfl, rfl, rfl, by decide, by decide, by decide,
    fun _ => rfl⟩
  all_goals intro u q; rfl

/-- Counterexample for C6: `POST /auth/login` with a null database
handle does not answer 503 — it authenticates against the fallback
demo table and returns 200 with a signed token. -/
theorem c6_login_fallback_counterexample :
    postLogin (fun _ _ => false) none (some "admin@techcorp.com")
        (some "password123") ≠ .err 503 "SERVICE_UNAVAILABLE" ∧
    postLogin (fun _ _ => false) none (some "admin@techcorp.com")
        (some "password123") =
      .ok 200 (demoPublic 1 "Demo Admin" "super_admin" "admin@techcorp.com")
        { id := 1, email := "admin@techcorp.com", role := "super_admin" }
        "fallback" := by
  exact ⟨by decide, by decide⟩

/-- Claim C7 (amended): an authenticated non-super_admin identity with
neither a company affiliation nor a store affiliation receives the
UNRESTRICTED active-row listing from the scoped read endpoints — the
if-chains simply apply no filter — not an empty result set. -/
theorem c7_no_affiliation_unfiltered :
    (∀ (d : Db) (i : Nat) (e : String),
      getStaff (some d) { id := i, email := e, role := "manager" } none =
        .ok 200 ((d.staff.filter (fun r => r.is_active)).map staffView)) ∧
    (∀ (d : Db) (i : Nat) (e : String),
      getProducts (some d) { id := i, email := e, role := "manager" } {} =
        .ok 200
          ((sortByName (d.products.filter (fun r => r.is_active))).take 100)) ∧
    (∀ (d : Db) (i : Nat) (e : String),
      getProducts (some d) { id := i, email := e, role := "cashier" } {} =
        .ok 200
          ((sortByName (d.products.filter (fun r => r.is_active))).take 100)) ∧
    (∀ (d : Db) (i : Nat) (e : String),
      getStores (some d) { id := i, email := e, role := "manager" } none =
        .ok 200 (d.stores.filter (fun r => r.is_active))) ∧
    (∀ (d : Db) (i : Nat) (e : String),
      getStores (some d) { id := i, email := e, role := "cashier" } none =
        .ok 200 (d.stores.filter (fun r => r.is_active))) ∧
    (∀ (d : Db) (i : Nat) (e : String),
      getCategories (some d) { id := i, email := e, role := "cashier" } none =
        .ok 200 (d.categories.filter (fun r => r.is_active))) := by
  refine ⟨?_, ?_, ?_, ?_, ?_, ?_⟩ <;> exact fun d i e => rfl

/-- Counterexample for C7: a manager with neither affiliation listing
staff receives the rows of BOTH stores, not an empty result set. -/
theorem c7_no_affiliation_counterexample :
    getStaff (some exDb)
        { id := 7, email := "alice@corp.io", role := "manager" } none ≠
      .ok 200 [] ∧
    getStaff (some exDb)
        { id := 7, email := "alice@corp.io", role := "manager" } none =
      .ok 200 (exDb.staff.map staffView) := by
  exact ⟨by decide, by decide⟩

/-- Claim C9: registration rejects a password shorter than 6
characters with 400 WEAK_PASSWORD (before the database is touched), a
malformed email with 400, a duplicate email with 409 USER_EXISTS, and
answers a valid request 201 with the created user, a token signed over
it and the source field. -/
theorem c9_register_validation (hash : String → String) (b : RegisterBody) :
    (truthyS b.email → truthyS b.password → truthyS b.name →
      emailOk (b.email.getD "") = true → (b.password.getD "").length < 6 →
      ∀ db, registerUser hash db b = .err 400 "WEAK_PASSWORD") ∧
    (truthyS b.email → truthyS b.password → truthyS b.name →
      emailOk (b.email.getD "") = false →
      ∀ db, registerUser hash db b = .err 400 "INVALID_EMAIL") ∧
    (∀ d, truthyS b.email → truthyS b.password → truthyS b.name →
      emailOk (b.email.getD "") = true →
      ¬ (b.password.getD "").length < 6 →
      (d.users.any (fun r => r.email == lowerS (b.email.getD ""))) = true →
      registerUser hash (some d) b = .err 409 "USER_EXISTS") ∧
    (∀ d, truthyS b.email → truthyS b.password → truthyS b.name →
      emailOk (b.email.getD "") = true →
      ¬ (b.password.getD "").length < 6 →
      (d.users.any (fun r => r.email == lowerS (b.email.getD ""))) = false →
      registerUser hash (some d) b =
        .ok 201 (registerPublic (insertedUser hash d b))
          (generateToken (insertedUser hash d b)) "supabase") := by
  refine ⟨?_, ?_, ?_, ?_⟩
  · intro h1 h2 h3 h4 h5 db
    simp [registerUser, h1, h2, h3, h4, h5]
  · intro h1 h2 h3 h4 db
    simp [registerUser, h1, h2, h3, h4]
  · intro d h1 h2 h3 h4 h5 h6
    simp [registerUser, h1, h2, h3, h4, h5, h6]
  · intro d h1 h2 h3 h4 h5 h6
    simp [registerUser, h1, h2, h3, h4, h5, h6]

/-- Witness for C9: the spec scenario — registering with the
5-character password abc12 is rejected 400 WEAK_PASSWORD. -/
theorem c9_register_validation_witness :
    registerUser (fun s => s) (some exDb)
      { email := some "user@example.com", password := some "abc12"
        name := some "Test User" } = .err 400 "WEAK_PASSWORD" :=
  (c9_register_validation (fun s => s)
      { email := some "user@example.com", password := some "abc12"
        name := some "Test User" }).1
    (by decide) (by decide) (by decide) (by decide) (by decide) (some exDb)

/-- Claim C10: both registrations of `GET /companies` considered, the
first (super_admin only) matches every request and responds, so every
authenticated non-super_admin caller receives 403
INSUFFICIENT_PERMISSIONS and the second, company-scoped handler —
which would return the company of the caller, or an empty list without
a company affiliation — is unreachable. -/
theorem c10_companies_first_route_shadows (db : Option Db) (c : Claims)
    (h : c.role ≠ "super_admin") :
    companiesGetR (fun _ => .ok c) (some "Bearer tok") db =
      .errRoles 403 "INSUFFICIENT_PERMISSIONS" ["super_admin"] c.role ∧
    (∀ d : Db, c.company_id = none →
      getCompaniesScoped (some d) c = .ok 200 []) ∧
    (∀ (d : Db) (k : String), c.company_id = some k → ¬ k = "" →
      getCompaniesScoped (some d) c =
        .ok 200
          ((d.companies.filter
              (fun x => x.is_active && some x.id == c.company_id)).map
            (formatCompany d))) := by
  refine ⟨?_, ?_, ?_⟩
  · show afterRole (.many ["super_admin"]) (some c)
      (fun _u => adminGetCompanies db) = _
    simp [afterRole, requireRole, allowedOf, h]
  · intro d hc
    simp [getCompaniesScoped, h, hc, truthyS]
  · intro d k hc hk
    simp [getCompaniesScoped, h, hc, truthyS, hk]

/-- Witness for C10: a cashier requesting `GET /companies` receives
403 INSUFFICIENT_PERMISSIONS from the first registered route. -/
theorem c10_companies_first_route_shadows_witness :
    companiesGetR (fun _ => .ok exCashierClaims) (some "Bearer tok")
        (some exDb) =
      .errRoles 403 "INSUFFICIENT_PERMISSIONS" ["super_admin"] "cashier" :=
  (c10_companies_first_route_shadows (some exDb) exCashierClaims
      (by decide)).1
